import Mathlib

/-!
Verification of the FallingText component (src/src/FallingText.jsx).

The component splits a text into word spans, highlights some of them
case-insensitively, and on activation builds a Matter.js physics session:
four static boundary bodies around the measured container rectangle, one
dynamic body per word span with random initial velocities, a mouse
constraint and a runner.  Activation is driven by a trigger mode (auto,
scroll, click, hover).  This file is a shallow embedding of that code:
strings are lists of characters, pixel quantities are rationals, the
physics engine calls are recorded as an explicit creation-call trace, and
the React effect/event flow is a step function on an explicit component
state.
-/

namespace FallingText

/-- Strings are modelled as lists of characters. -/
abbrev Str := List Char

/-- The space character, the separator used by the code in text.split. -/
def spaceChar : Char := Char.ofNat 32

/-- JS semantics of text.split with the single-space separator: split at
every occurrence of the space character, keeping empty parts (so adjacent,
leading and trailing spaces produce empty tokens, and the empty string
yields one empty token). -/
def splitSpace : Str → List Str
  | [] => [[]]
  | c :: cs =>
    match splitSpace cs with
    | [] => [[]]
    | t :: ts => if c = spaceChar then [] :: t :: ts else (c :: t) :: ts

/-- JS semantics of joining a list of parts with a single space, as the
code does when assembling the span markup. -/
def joinSpace : List Str → Str
  | [] => []
  | [t] => t
  | t :: ts => t ++ spaceChar :: joinSpace ts

/-- Splitting at every whitespace character.  This definition follows the
wording of the specification (whitespace boundaries), not the code; it is
only used to compare the specified tokenization with the coded one. -/
def wsSplit : Str → List Str
  | [] => [[]]
  | c :: cs =>
    match wsSplit cs with
    | [] => [[]]
    | t :: ts => if c.isWhitespace then [] :: t :: ts else (c :: t) :: ts

/-- Whitespace-delimited tokens of a text, per the specification wording:
the nonempty parts of the whitespace split. -/
def wsTokens (l : Str) : List Str := (wsSplit l).filter fun t => !t.isEmpty

/-- JS String.toLowerCase, restricted to the per-character lowering that
both sides of the comparison in the code use. -/
def jsToLower (s : Str) : Str := s.map Char.toLower

/-- The isHighlighted check of the text-display effect: some entry of
highlightWords has the same lowercase form as the word. -/
def isHighlighted (highlightWords : List Str) (word : Str) : Bool :=
  highlightWords.any fun hw => jsToLower word == jsToLower hw

/-- A rendered word span: its text and whether the highlight class was
attached. -/
structure Token where
  text : Str
  emphasized : Bool
deriving DecidableEq

/-- The text-display effect: split the text on single spaces and attach
the highlight flag to each word. -/
def renderTokens (text : Str) (highlightWords : List Str) : List Token :=
  (splitSpace text).map fun w => ⟨w, isHighlighted highlightWords w⟩

/-- Trigger mode strings compared against in the code. -/
def autoStr : Str := "auto".data

/-- The scroll trigger string. -/
def scrollStr : Str := "scroll".data

/-- The click trigger string. -/
def clickStr : Str := "click".data

/-- The hover trigger string. -/
def hoverStr : Str := "hover".data

/-- A measured bounding rectangle (getBoundingClientRect). -/
structure Rect where
  left : ℚ
  top : ℚ
  width : ℚ
  height : ℚ
deriving DecidableEq

/-- A Matter.js body as configured by the code: centre position, size,
static flag, material constants and initial velocities.  Bodies the code
leaves unconfigured keep the Matter defaults (restitution 0, friction
1/10, air friction 1/100, zero velocity). -/
structure Body where
  x : ℚ
  y : ℚ
  w : ℚ
  h : ℚ
  isStatic : Bool
  restitution : ℚ
  friction : ℚ
  frictionAir : ℚ
  vx : ℚ
  vy : ℚ
  angularVelocity : ℚ
deriving DecidableEq

/-- Bodies.rectangle with the boundaryOptions of the code: a static box
with Matter default material and no initial velocity. -/
def staticBox (x y w h : ℚ) : Body :=
  { x := x, y := y, w := w, h := h, isStatic := true,
    restitution := 0, friction := 1/10, frictionAir := 1/100,
    vx := 0, vy := 0, angularVelocity := 0 }

/-- The floor boundary: Bodies.rectangle at width/2, height + 25, sized
width by 50. -/
def floorBody (w h : ℚ) : Body := staticBox (w/2) (h + 25) w 50

/-- The left wall boundary: Bodies.rectangle at -25, height/2, sized 50 by
height. -/
def leftWallBody (_w h : ℚ) : Body := staticBox (-25) (h/2) 50 h

/-- The right wall boundary: Bodies.rectangle at width + 25, height/2,
sized 50 by height. -/
def rightWallBody (w h : ℚ) : Body := staticBox (w + 25) (h/2) 50 h

/-- The ceiling boundary: Bodies.rectangle at width/2, -25, sized width by
50. -/
def ceilingBody (w _h : ℚ) : Body := staticBox (w/2) (-25) w 50

/-- The four boundary bodies created at session start, in source order. -/
def boundaries (w h : ℚ) : List Body :=
  [floorBody w h, leftWallBody w h, rightWallBody w h, ceilingBody w h]

/-- The dynamic body created for one word span: centred at the span
rectangle relative to the container, with the material constants of the
code, horizontal velocity of r1 minus one half times 5 and angular
velocity of r2 minus one half times one twentieth, where r1 and r2 are the
Math.random draws. -/
def wordBody (containerRect rect : Rect) (r1 r2 : ℚ) : Body :=
  { x := rect.left - containerRect.left + rect.width / 2,
    y := rect.top - containerRect.top + rect.height / 2,
    w := rect.width, h := rect.height, isStatic := false,
    restitution := 4/5, friction := 1/5, frictionAir := 1/100,
    vx := (r1 - 1/2) * 5, vy := 0,
    angularVelocity := (r2 - 1/2) * (1/20) }

/-- The environment the physics effect reads from the browser: the
container rectangle, the measured rectangle of each word span, and the
pair of Math.random draws consumed per span. -/
structure Env where
  containerRect : Rect
  wordRects : List Rect
  draws : List (ℚ × ℚ)
deriving DecidableEq

/-- One resource-creation call made against the physics engine during the
physics effect. -/
inductive CreateCall
  | engine
  | render
  | staticBody
  | dynamicBody
  | mouseConstraint
  | runner
deriving DecidableEq

/-- A built physics session: the engine world gravity, the boundary
bodies, the word bodies, the mouse-constraint stiffness, and whether the
render canvas is attached to the canvas container (Render.create appends
it). -/
structure Session where
  gravityY : ℚ
  boundaries : List Body
  wordBodies : List Body
  mouseStiffness : ℚ
  canvasAttached : Bool
deriving DecidableEq

/-- The word bodies built by the physics effect: one per rendered span, in
order, each from its measured rectangle and its two random draws. -/
def buildWordBodies (env : Env) (spans : List Token) : List Body :=
  (List.range spans.length).map fun i =>
    wordBody env.containerRect (env.wordRects.getD i ⟨0, 0, 0, 0⟩)
      (env.draws.getD i (0, 0)).1 (env.draws.getD i (0, 0)).2

/-- The physics effect (Matter.js setup): guarded on the activation flag
and the initialization flag, then on the container having positive
measured width and height; on success it returns the built session and
the ordered trace of resource-creation calls, on abort it returns no
session and an empty trace. -/
def physicsBuildT (effectStarted isInitialized : Bool) (env : Env)
    (gravity stiffness : ℚ) (spans : List Token) :
    Option Session × List CreateCall :=
  if effectStarted && isInitialized then
    if env.containerRect.width ≤ 0 ∨ env.containerRect.height ≤ 0 then (none, [])
    else
      (some ⟨gravity,
             boundaries env.containerRect.width env.containerRect.height,
             buildWordBodies env spans, stiffness, true⟩,
       CreateCall.engine :: CreateCall.render ::
       CreateCall.staticBody :: CreateCall.staticBody ::
       CreateCall.staticBody :: CreateCall.staticBody ::
       ((buildWordBodies env spans).map fun _ => CreateCall.dynamicBody) ++
       [CreateCall.mouseConstraint, CreateCall.runner])
  else (none, [])

/-- The effect cleanup at component level.  When no session was built the
effect registered no cleanup, so teardown is a no-op.  When a session
exists, the cleanup stops render and runner, removes the canvas from its
container when present (removing an already-detached canvas would raise
NotFoundError), clears the world and discards it. -/
def teardown : Option Session → Except Str (Option Session)
  | none => Except.ok none
  | some s =>
    if s.canvasAttached then Except.ok none
    else Except.error ("NotFoundError".data)

/-- The handleTrigger callback: when the effect has not started and the
trigger is click or hover, start the effect. -/
def handleTrigger (trigger : Str) (effectStarted : Bool) : Bool :=
  if !effectStarted && (trigger == clickStr || trigger == hoverStr) then true
  else effectStarted

/-- The pointer events the container binds handlers for. -/
inductive PointerEvent
  | click
  | mouseOver
deriving DecidableEq

/-- Delivery of a pointer event to the container: onClick is bound to
handleTrigger only when the trigger is click, onMouseOver only when the
trigger is hover; otherwise the event has no handler. -/
def onPointerEvent (trigger : Str) (e : PointerEvent) (effectStarted : Bool) : Bool :=
  match e with
  | PointerEvent.click =>
    if trigger == clickStr then handleTrigger trigger effectStarted else effectStarted
  | PointerEvent.mouseOver =>
    if trigger == hoverStr then handleTrigger trigger effectStarted else effectStarted

/-- An IntersectionObserver entry: whether the target is reported as
intersecting and the intersection ratio of the entry. -/
structure IntersectionEntry where
  isIntersecting : Bool
  ratioVal : ℚ
deriving DecidableEq

/-- The state around the scroll observer: whether the observer is still
connected and whether the effect has been started. -/
structure ObserverState where
  connected : Bool
  effectStarted : Bool
deriving DecidableEq

/-- The threshold the code registers the observer with: the rational one
tenth, written in normal form so that comparisons evaluate by kernel
reduction. -/
def threshold : ℚ := ⟨1, 10, by norm_num, Nat.coprime_one_left 10⟩

/-- The observer callback of the code: entries are only delivered while
the observer is connected; an intersecting entry starts the effect and
disconnects the observer, any other entry changes nothing. -/
def observerStep (st : ObserverState) (e : IntersectionEntry) : ObserverState :=
  if st.connected then
    if e.isIntersecting then ⟨false, true⟩ else st
  else st

/-- Deliver a list of observer entries in order. -/
def observerRun (st : ObserverState) (es : List IntersectionEntry) : ObserverState :=
  es.foldl observerStep st

/-- The observer state right after registration: connected, effect not
started. -/
def initObs : ObserverState := ⟨true, false⟩

/-- The resolved component props, with the types the code destructures. -/
structure Props where
  text : Str
  highlightWords : List Str
  highlightClass : Str
  trigger : Str
  backgroundColor : Str
  wireframes : Bool
  gravity : ℚ
  mouseConstraintStiffness : ℚ
  fontSize : Str
deriving DecidableEq

/-- The props as the host may supply them: any field may be omitted. -/
structure PartialProps where
  text : Option Str
  highlightWords : Option (List Str)
  highlightClass : Option Str
  trigger : Option Str
  backgroundColor : Option Str
  wireframes : Option Bool
  gravity : Option ℚ
  mouseConstraintStiffness : Option ℚ
  fontSize : Option Str
deriving DecidableEq

/-- The default highlight class string of the code. -/
def highlightedStr : Str := "highlighted".data

/-- The default background color string of the code. -/
def transparentStr : Str := "transparent".data

/-- The default font size string of the code. -/
def remStr : Str := "1rem".data

/-- JS default-parameter semantics of the destructuring at the top of the
component: every omitted field is replaced by the default written in the
source. -/
def resolveProps (pp : PartialProps) : Props :=
  { text := pp.text.getD [],
    highlightWords := pp.highlightWords.getD [],
    highlightClass := pp.highlightClass.getD highlightedStr,
    trigger := pp.trigger.getD autoStr,
    backgroundColor := pp.backgroundColor.getD transparentStr,
    wireframes := pp.wireframes.getD false,
    gravity := pp.gravity.getD 1,
    mouseConstraintStiffness := pp.mouseConstraintStiffness.getD (1/5),
    fontSize := pp.fontSize.getD remStr }

/-- The partial props with every field omitted. -/
def PartialProps.empty : PartialProps :=
  ⟨none, none, none, none, none, none, none, none, none⟩

/-- The configuration the defaults resolve to. -/
def defaultProps : Props :=
  ⟨[], [], highlightedStr, autoStr, transparentStr, false, 1, 1/5, remStr⟩

/-- Embed fully-supplied props into partial props. -/
def Props.toPartial (p : Props) : PartialProps :=
  ⟨some p.text, some p.highlightWords, some p.highlightClass, some p.trigger,
   some p.backgroundColor, some p.wireframes, some p.gravity,
   some p.mouseConstraintStiffness, some p.fontSize⟩

/-- The component state across effects and events: the rendered spans (if
the text effect has run), the two flags, whether the scroll observer is
registered, and the built session. -/
structure CState where
  spans : Option (List Token)
  isInitialized : Bool
  observing : Bool
  effectStarted : Bool
  session : Option Session
deriving DecidableEq

/-- The things that can happen to a mounted component, in the order React
or the browser delivers them. -/
inductive Event
  | textEffect
  | triggerEffect
  | intersect (entry : IntersectionEntry)
  | pointer (e : PointerEvent)
  | physicsEffect (env : Env)
deriving DecidableEq

/-- The freshly-mounted component state. -/
def initC : CState := ⟨none, false, false, false, none⟩

/-- One step of the component: the text-display effect writes the spans
and sets the initialization flag; the trigger effect bails out unless
initialized and otherwise starts the effect (auto) or registers the
observer (scroll); an observer entry fires the observer callback; a
pointer event goes through the bound handler; the physics effect rebuilds
the session from the current flags, spans and measured environment. -/
def step (cfg : Props) (st : CState) : Event → CState
  | Event.textEffect =>
    { st with spans := some (renderTokens cfg.text cfg.highlightWords),
              isInitialized := true }
  | Event.triggerEffect =>
    if !st.isInitialized then st
    else if cfg.trigger == autoStr then { st with effectStarted := true }
    else if cfg.trigger == scrollStr then { st with observing := true }
    else st
  | Event.intersect entry =>
    if st.observing && entry.isIntersecting then
      { st with effectStarted := true, observing := false }
    else st
  | Event.pointer e =>
    { st with effectStarted := onPointerEvent cfg.trigger e st.effectStarted }
  | Event.physicsEffect env =>
    { st with session :=
        (physicsBuildT st.effectStarted st.isInitialized env cfg.gravity
          cfg.mouseConstraintStiffness (st.spans.getD [])).1 }

/-- Run a mounted component over a list of events. -/
def runC (cfg : Props) (es : List Event) : CState := es.foldl (step cfg) initC

/-- A concrete positive-size environment used in witnesses. -/
def envA : Env := ⟨⟨0, 0, 100, 50⟩, [], []⟩

/-- A concrete zero-height environment used in witnesses. -/
def envZeroH : Env := ⟨⟨0, 0, 100, 0⟩, [], []⟩

/-- The text used for the tokenization counterexample: two words
separated by two spaces. -/
def cexText : Str := "a  b".data

/-- The token text used in the highlighting witness. -/
def seoWord : Str := "Seo".data

/-- The highlight-list entry used in the highlighting witness. -/
def seoCaps : Str := "SEO".data

/-- The component invariant behind the token-before-physics guarantee:
when the initialization flag is set the spans were written, and when a
session exists the spans were written. -/
def InvC (st : CState) : Prop :=
  (st.isInitialized = true → st.spans.isSome = true) ∧
  (st.session.isSome = true → st.spans.isSome = true)

/-- The entries delivered before the container reaches the viewport in
the scroll witness. -/
def preEntries : List IntersectionEntry := [⟨false, 0⟩]

/-- The first entry whose ratio reaches the threshold in the scroll
witness. -/
def hitEntry : IntersectionEntry := ⟨true, 1⟩

/-- The entries delivered after activation in the scroll witness. -/
def postEntries : List IntersectionEntry := [⟨true, 1⟩, ⟨false, 0⟩]

/-- Splitting never returns an empty list of parts. -/
theorem splitSpace_ne_nil (l : Str) : splitSpace l ≠ [] := by
  cases l with
  | nil => simp [splitSpace]
  | cons c cs =>
    cases hsp : splitSpace cs with
    | nil => simp [splitSpace, hsp]
    | cons t ts =>
      simp only [splitSpace, hsp]
      split <;> simp

/-- Joining the single-space split with single spaces restores the text:
the split preserves order and content. -/
theorem joinSpace_splitSpace (l : Str) : joinSpace (splitSpace l) = l := by
  induction l with
  | nil => rfl
  | cons c cs ih =>
    cases hsp : splitSpace cs with
    | nil => exact absurd hsp (splitSpace_ne_nil cs)
    | cons t ts =>
      rw [hsp] at ih
      by_cases hc : c = spaceChar
      · subst hc
        simp only [splitSpace, hsp, if_pos rfl]
        show spaceChar :: joinSpace (t :: ts) = spaceChar :: cs
        rw [ih]
      · simp only [splitSpace, hsp, if_neg hc]
        cases ts with
        | nil =>
          have ht : t = cs := ih
          show c :: t = c :: cs
          rw [ht]
        | cons u us =>
          have ht : t ++ spaceChar :: joinSpace (u :: us) = cs := ih
          show (c :: t) ++ spaceChar :: joinSpace (u :: us) = c :: cs
          rw [List.cons_append, ht]

/-- One word body is built per rendered span. -/
theorem buildWordBodies_length (env : Env) (spans : List Token) :
    (buildWordBodies env spans).length = spans.length := by
  simp [buildWordBodies]

/-- On a positively-sized container with both flags set, the physics
effect builds the session and emits the full creation-call trace. -/
theorem physicsBuildT_pos (env : Env) (g s : ℚ) (spans : List Token)
    (hw : 0 < env.containerRect.width) (hh : 0 < env.containerRect.height) :
    physicsBuildT true true env g s spans =
      (some ⟨g, boundaries env.containerRect.width env.containerRect.height,
             buildWordBodies env spans, s, true⟩,
       CreateCall.engine :: CreateCall.render ::
       CreateCall.staticBody :: CreateCall.staticBody ::
       CreateCall.staticBody :: CreateCall.staticBody ::
       ((buildWordBodies env spans).map fun _ => CreateCall.dynamicBody) ++
       [CreateCall.mouseConstraint, CreateCall.runner]) := by
  unfold physicsBuildT
  rw [if_pos (show (true && true) = true from rfl),
      if_neg (not_or.mpr ⟨not_le.mpr hw, not_le.mpr hh⟩)]

/-- Claim C1 (amended): tokenization splits the text at every single
space character, preserving order and content (joining the parts back
with single spaces restores the text), and the number of word bodies
created at activation equals the number of such parts, empty parts
included. -/
theorem tokenBody_count_eq_splitSpace (text : Str) (hws : List Str) (env : Env)
    (g s : ℚ) (hw : 0 < env.containerRect.width)
    (hh : 0 < env.containerRect.height) :
    ((physicsBuildT true true env g s (renderTokens text hws)).1).elim 0
        (fun se => se.wordBodies.length) = (splitSpace text).length ∧
    joinSpace (splitSpace text) = text := by
  constructor
  · rw [physicsBuildT_pos env g s _ hw hh]
    simp [Option.elim, buildWordBodies_length, renderTokens]
  · exact joinSpace_splitSpace text

/-- Witness for the amended tokenization claim at a concrete input. -/
theorem tokenBody_count_eq_splitSpace_witness :
    (0 : ℚ) < envA.containerRect.width ∧
    ((physicsBuildT true true envA 1 (1/5) (renderTokens cexText [])).1).elim 0
        (fun se => se.wordBodies.length) = (splitSpace cexText).length :=
  ⟨by decide,
   (tokenBody_count_eq_splitSpace cexText [] envA 1 (1/5) (by decide) (by decide)).1⟩

/-- Claim C1 counterexample: for the text made of the letter a, two
spaces and the letter b, activation creates three word bodies while the
text has only two whitespace-delimited tokens, so the claimed count
equality fails on this input. -/
theorem tokenBody_count_whitespace_cex :
    ((physicsBuildT true true envA 1 (1/5) (renderTokens cexText [])).1).elim 0
        (fun se => se.wordBodies.length) = 3 ∧
    (wsTokens cexText).length = 2 ∧
    ¬ ((physicsBuildT true true envA 1 (1/5) (renderTokens cexText [])).1).elim 0
        (fun se => se.wordBodies.length) = (wsTokens cexText).length :=
  ⟨by decide, by decide, by decide⟩

/-- Claim C2 (confirmed): a rendered token carries the emphasized flag iff
the lowercase form of its text equals the lowercase form of some entry of
highlightWords. -/
theorem token_emphasized_iff (text : Str) (hws : List Str) (t : Token)
    (ht : t ∈ renderTokens text hws) :
    t.emphasized = true ↔ ∃ h ∈ hws, jsToLower t.text = jsToLower h := by
  simp only [renderTokens, List.mem_map] at ht
  rcases ht with ⟨w, _, rfl⟩
  simp [isHighlighted, List.any_eq_true]

/-- Witness: the token Seo is produced emphasized from the highlight list
containing SEO, and the equivalence holds at it. -/
theorem token_emphasized_iff_witness :
    (⟨seoWord, true⟩ : Token) ∈ renderTokens seoWord [seoCaps] ∧
    ((⟨seoWord, true⟩ : Token).emphasized = true ↔
      ∃ h ∈ [seoCaps], jsToLower (⟨seoWord, true⟩ : Token).text = jsToLower h) :=
  ⟨by decide, token_emphasized_iff seoWord [seoCaps] _ (by decide)⟩

/-- Claim C3 (confirmed): when the measured container rectangle has
non-positive width or height, the physics effect aborts; no session is
built and the resource-creation trace is empty, so no engine world, no
renderer, no boundary body, no word body, no constraint and no runner is
created. -/
theorem degenerate_layout_no_alloc (eff init : Bool) (env : Env) (g s : ℚ)
    (spans : List Token)
    (h : env.containerRect.width ≤ 0 ∨ env.containerRect.height ≤ 0) :
    physicsBuildT eff init env g s spans = (none, []) := by
  unfold physicsBuildT
  split <;> rfl

/-- Witness: at a container measured with zero height the effect aborts
with no allocation. -/
theorem degenerate_layout_no_alloc_witness :
    (envZeroH.containerRect.width ≤ 0 ∨ envZeroH.containerRect.height ≤ 0) ∧
    physicsBuildT true true envZeroH 1 (1/5) [] = (none, []) :=
  ⟨by decide, degenerate_layout_no_alloc true true envZeroH 1 (1/5) [] (by decide)⟩

/-- Claim C4 (confirmed): teardown of an absent session (aborted start,
or a second teardown after the first already discarded the session) is an
error-free no-op; teardown of whatever the physics effect produced
succeeds, because a built session always has its canvas attached so the
guarded removeChild cannot raise; and a session rebuilt afterwards holds
exactly four boundary bodies and one word body per span, so repeated
teardown does not duplicate bodies in the rebuilt session. -/
theorem teardown_safe (env : Env) (g s : ℚ) (spans : List Token)
    (hw : 0 < env.containerRect.width) (hh : 0 < env.containerRect.height) :
    teardown none = Except.ok none ∧
    teardown (physicsBuildT true true env g s spans).1 = Except.ok none ∧
    ((physicsBuildT true true env g s spans).1).elim 0
        (fun se => se.boundaries.length) = 4 ∧
    ((physicsBuildT true true env g s spans).1).elim 0
        (fun se => se.wordBodies.length) = spans.length := by
  refine ⟨rfl, ?_, ?_, ?_⟩
  · rw [physicsBuildT_pos env g s spans hw hh]
    rfl
  · rw [physicsBuildT_pos env g s spans hw hh]
    simp [Option.elim, boundaries]
  · rw [physicsBuildT_pos env g s spans hw hh]
    simp [Option.elim, buildWordBodies_length]

/-- Witness: on a concrete positive container the built session tears
down without error. -/
theorem teardown_safe_witness :
    (0 : ℚ) < envA.containerRect.width ∧
    teardown (physicsBuildT true true envA 1 (1/5) []).1 = Except.ok none :=
  ⟨by decide, (teardown_safe envA 1 (1/5) [] (by decide) (by decide)).2.1⟩

/-- A pointer event delivered to an already-active component leaves it
active. -/
theorem onPointerEvent_true (trigger : Str) (e : PointerEvent) :
    onPointerEvent trigger e true = true := by
  cases e <;> simp [onPointerEvent, handleTrigger]

/-- Any sequence of pointer events delivered after activation leaves the
component active. -/
theorem foldl_onPointerEvent_true (trigger : Str) (es : List PointerEvent) :
    es.foldl (fun st ev => onPointerEvent trigger ev st) true = true := by
  induction es with
  | nil => rfl
  | cons e es ih =>
    rw [List.foldl_cons, onPointerEvent_true]
    exact ih

/-- Claim C5 (confirmed): with trigger click (respectively hover) the
matching pointer event transitions the effect state from Idle to Active,
and every pointer event delivered after activation has no further effect:
the state stays Active. -/
theorem pointer_activation_idempotent (trigger : Str) (e : PointerEvent)
    (hmatch : (trigger = clickStr ∧ e = PointerEvent.click) ∨
              (trigger = hoverStr ∧ e = PointerEvent.mouseOver)) :
    onPointerEvent trigger e false = true ∧
    ∀ es : List PointerEvent,
      es.foldl (fun st ev => onPointerEvent trigger ev st) true = true := by
  refine ⟨?_, fun es => foldl_onPointerEvent_true trigger es⟩
  rcases hmatch with ⟨ht, he⟩ | ⟨ht, he⟩ <;> subst ht <;> subst he <;> decide

/-- Witness: a click activates a click-triggered component and two more
clicks leave it active. -/
theorem pointer_activation_idempotent_witness :
    (clickStr = clickStr ∧ PointerEvent.click = PointerEvent.click) ∧
    onPointerEvent clickStr PointerEvent.click false = true ∧
    List.foldl (fun st ev => onPointerEvent clickStr ev st) true
      [PointerEvent.click, PointerEvent.click] = true :=
  ⟨⟨rfl, rfl⟩,
   (pointer_activation_idempotent clickStr PointerEvent.click (Or.inl ⟨rfl, rfl⟩)).1,
   (pointer_activation_idempotent clickStr PointerEvent.click (Or.inl ⟨rfl, rfl⟩)).2
     [PointerEvent.click, PointerEvent.click]⟩

/-- The registered threshold value is one tenth. -/
theorem threshold_eq : threshold = 1/10 := by
  rw [threshold, Rat.mk'_eq_divInt, Rat.divInt_eq_div]
  norm_num

/-- A disconnected observer never changes state again. -/
theorem observerRun_disconnected (b : Bool) (es : List IntersectionEntry) :
    observerRun ⟨false, b⟩ es = ⟨false, b⟩ := by
  induction es with
  | nil => rfl
  | cons e es ih =>
    show observerRun (observerStep ⟨false, b⟩ e) es = ⟨false, b⟩
    have hstep : observerStep ⟨false, b⟩ e = ⟨false, b⟩ := rfl
    rw [hstep]
    exact ih

/-- While every delivered entry is non-intersecting the observer stays
connected and the effect stays unstarted. -/
theorem observerRun_not_intersecting (es : List IntersectionEntry)
    (h : ∀ x ∈ es, x.isIntersecting = false) :
    observerRun initObs es = initObs := by
  induction es with
  | nil => rfl
  | cons e es ih =>
    have he : e.isIntersecting = false := h e (List.mem_cons_self e es)
    show observerRun (observerStep initObs e) es = initObs
    have hstep : observerStep initObs e = initObs := by
      simp [observerStep, initObs, he]
    rw [hstep]
    exact ih fun x hx => h x (List.mem_cons_of_mem e hx)

/-- Claim C6 (confirmed): with the scroll trigger, the effect state stays
Idle across every delivered entry whose intersection ratio is below the
registered threshold of one tenth; the first entry whose ratio reaches
the threshold starts the effect and disconnects the observer; and no
entry delivered afterwards changes the state again, so activation happens
exactly once.  Entries are related to ratios the way the observer
registered with threshold one tenth reports them: an entry intersects iff
its ratio has reached the threshold. -/
theorem scroll_activates_once (pre post : List IntersectionEntry)
    (e : IntersectionEntry)
    (hsem : ∀ x ∈ pre ++ e :: post,
      x.isIntersecting = decide (threshold ≤ x.ratioVal))
    (hpre : ∀ x ∈ pre, x.ratioVal < threshold)
    (he : threshold ≤ e.ratioVal) :
    observerRun initObs pre = initObs ∧
    observerRun initObs (pre ++ e :: post) = ⟨false, true⟩ := by
  have hpre2 : ∀ x ∈ pre, x.isIntersecting = false := by
    intro x hx
    rw [hsem x (List.mem_append_left _ hx)]
    exact decide_eq_false (not_le.mpr (hpre x hx))
  have h1 : observerRun initObs pre = initObs :=
    observerRun_not_intersecting pre hpre2
  refine ⟨h1, ?_⟩
  have hei : e.isIntersecting = true := by
    rw [hsem e (List.mem_append_right _ (List.mem_cons_self e post))]
    exact decide_eq_true he
  rw [observerRun, List.foldl_append]
  have h1f : pre.foldl observerStep initObs = initObs := h1
  rw [h1f, List.foldl_cons]
  have hstep : observerStep initObs e = ⟨false, true⟩ := by
    simp [observerStep, initObs, hei]
  rw [hstep]
  exact observerRun_disconnected true post

/-- Witness: on a concrete entry trace the observer activates exactly at
the first entry reaching the threshold and stays inactive afterwards. -/
theorem scroll_activates_once_witness :
    threshold ≤ hitEntry.ratioVal ∧
    observerRun initObs (preEntries ++ hitEntry :: postEntries) = ⟨false, true⟩ :=
  ⟨by decide,
   (scroll_activates_once preEntries postEntries hitEntry
     (by decide) (by decide) (by decide)).2⟩

/-- Claim C7 (confirmed): session start makes exactly four static-body
creation calls and the session holds the four boundary bodies in source
order; the floor is centred at width/2 and height + 25 with 50 thickness
and the container width, the ceiling, left wall and right wall mirror it
on the other three sides, and each boundary sits flush against the
outside of its container edge. -/
theorem boundary_geometry (w h : ℚ) (env : Env) (g s : ℚ) (spans : List Token)
    (hw : 0 < env.containerRect.width) (hh : 0 < env.containerRect.height) :
    (physicsBuildT true true env g s spans).2.count CreateCall.staticBody = 4 ∧
    ((physicsBuildT true true env g s spans).1).elim []
        (fun se => se.boundaries) =
      boundaries env.containerRect.width env.containerRect.height ∧
    boundaries w h =
      [floorBody w h, leftWallBody w h, rightWallBody w h, ceilingBody w h] ∧
    (boundaries w h).length = 4 ∧
    (∀ b ∈ boundaries w h, b.isStatic = true) ∧
    (floorBody w h).x = w / 2 ∧ (floorBody w h).y = h + 25 ∧
    (floorBody w h).w = w ∧ (floorBody w h).h = 50 ∧
    (ceilingBody w h).x = w / 2 ∧ (ceilingBody w h).y = -25 ∧
    (ceilingBody w h).w = w ∧ (ceilingBody w h).h = 50 ∧
    (leftWallBody w h).x = -25 ∧ (leftWallBody w h).y = h / 2 ∧
    (leftWallBody w h).w = 50 ∧ (leftWallBody w h).h = h ∧
    (rightWallBody w h).x = w + 25 ∧ (rightWallBody w h).y = h / 2 ∧
    (rightWallBody w h).w = 50 ∧ (rightWallBody w h).h = h ∧
    (floorBody w h).y - (floorBody w h).h / 2 = h ∧
    (ceilingBody w h).y + (ceilingBody w h).h / 2 = 0 ∧
    (leftWallBody w h).x + (leftWallBody w h).w / 2 = 0 ∧
    (rightWallBody w h).x - (rightWallBody w h).w / 2 = w := by
  refine ⟨?_, ?_, rfl, rfl, ?_, rfl, rfl, rfl, rfl, rfl, rfl, rfl, rfl, rfl,
    rfl, rfl, rfl, rfl, rfl, rfl, rfl, ?_, ?_, ?_, ?_⟩
  · rw [physicsBuildT_pos env g s spans hw hh]
    simp [List.count_cons, List.count_append, List.count_eq_zero]
  · rw [physicsBuildT_pos env g s spans hw hh]
    rfl
  · intro b hb
    simp only [boundaries, List.mem_cons, List.not_mem_nil, or_false] at hb
    rcases hb with rfl | rfl | rfl | rfl <;> rfl
  · show h + 25 - 50 / 2 = h
    norm_num
  · show -25 + 50 / 2 = 0
    norm_num
  · show -25 + 50 / 2 = 0
    norm_num
  · show w + 25 - 50 / 2 = w
    norm_num

/-- Witness: on the concrete container exactly four static bodies are
created. -/
theorem boundary_geometry_witness :
    (0 : ℚ) < envA.containerRect.width ∧
    (physicsBuildT true true envA 1 (1/5) []).2.count CreateCall.staticBody = 4 :=
  ⟨by decide, (boundary_geometry 100 50 envA 1 (1/5) [] (by decide) (by decide)).1⟩

/-- Claim C8 (confirmed): for random draws in the unit interval each word
body gets a horizontal velocity within the closed interval from minus
five halves to five halves, zero vertical velocity, and an angular
velocity within minus one fortieth to one fortieth; moreover the affine
maps applied to the draws reach every value of the half-open target
intervals, so a uniform draw is carried onto them. -/
theorem initial_velocity_bounds (cr rect : Rect) (r1 r2 : ℚ)
    (h0 : 0 ≤ r1) (h1 : r1 < 1) (h2 : 0 ≤ r2) (h3 : r2 < 1) :
    (-(5/2) ≤ (wordBody cr rect r1 r2).vx ∧ (wordBody cr rect r1 r2).vx ≤ 5/2) ∧
    (wordBody cr rect r1 r2).vy = 0 ∧
    (-(1/40) ≤ (wordBody cr rect r1 r2).angularVelocity ∧
      (wordBody cr rect r1 r2).angularVelocity ≤ 1/40) ∧
    (∀ v : ℚ, -(5/2) ≤ v → v < 5/2 →
      ∃ r : ℚ, 0 ≤ r ∧ r < 1 ∧ (r - 1/2) * 5 = v) ∧
    (∀ a : ℚ, -(1/40) ≤ a → a < 1/40 →
      ∃ r : ℚ, 0 ≤ r ∧ r < 1 ∧ (r - 1/2) * (1/20) = a) := by
  have hvx : (wordBody cr rect r1 r2).vx = 5 * r1 - 5/2 := by
    show (r1 - 1/2) * 5 = 5 * r1 - 5/2
    ring
  have hav : (wordBody cr rect r1 r2).angularVelocity = r2 / 20 - 1/40 := by
    show (r2 - 1/2) * (1/20) = r2 / 20 - 1/40
    ring
  refine ⟨⟨?_, ?_⟩, rfl, ⟨?_, ?_⟩, ?_, ?_⟩
  · rw [hvx]; linarith
  · rw [hvx]; linarith
  · rw [hav]; linarith
  · rw [hav]; linarith
  · intro v hv1 hv2
    exact ⟨v/5 + 1/2, by linarith, by linarith, by ring⟩
  · intro a ha1 ha2
    exact ⟨20*a + 1/2, by linarith, by linarith, by ring⟩

/-- Witness: with both draws zero the built body has zero vertical
velocity and the bounds hold. -/
theorem initial_velocity_bounds_witness :
    (0 : ℚ) ≤ 0 ∧ (wordBody ⟨0, 0, 10, 10⟩ ⟨0, 0, 10, 10⟩ 0 0).vy = 0 :=
  ⟨by decide,
   (initial_velocity_bounds ⟨0, 0, 10, 10⟩ ⟨0, 0, 10, 10⟩ 0 0
     (by decide) (by decide) (by decide) (by decide)).2.1⟩

/-- Claim C9 counterexample: the host may omit every configuration field
and the component still resolves a full configuration from defaults
written in the source (trigger auto and gravity one among them), so the
fields are not required and the core does define hidden default values
for them. -/
theorem props_defaults_cex :
    PartialProps.empty.text = none ∧
    PartialProps.empty.trigger = none ∧
    PartialProps.empty.gravity = none ∧
    resolveProps PartialProps.empty = defaultProps ∧
    defaultProps.trigger = autoStr ∧
    defaultProps.gravity = 1 :=
  ⟨rfl, rfl, rfl, rfl, rfl, rfl⟩

/-- Claim C9 (amended): every configuration field is optional; a supplied
value is used as given, and an omitted field falls back to the default in
the source: empty text, empty highlight list, class highlighted, trigger
auto, transparent background, wireframes off, gravity one, stiffness one
fifth, font size one rem. -/
theorem props_optional_defaults :
    (∀ p : Props, resolveProps p.toPartial = p) ∧
    resolveProps PartialProps.empty = defaultProps := by
  constructor
  · intro p
    cases p
    rfl
  · rfl

/-- A session can only come out of the physics effect when both guard
flags were set. -/
theorem physicsBuildT_fst_isSome (eff init : Bool) (env : Env) (g s : ℚ)
    (spans : List Token)
    (h : ((physicsBuildT eff init env g s spans).1).isSome = true) :
    eff = true ∧ init = true := by
  cases eff <;> cases init <;>
    first
      | exact ⟨rfl, rfl⟩
      | (exfalso; simp [physicsBuildT] at h)

/-- Every component step preserves the invariant. -/
theorem invC_step (cfg : Props) (st : CState) (e : Event) (hst : InvC st) :
    InvC (step cfg st e) := by
  obtain ⟨h1, h2⟩ := hst
  cases e with
  | textEffect => exact ⟨fun _ => rfl, fun _ => rfl⟩
  | triggerEffect =>
    simp only [step]
    split
    · exact ⟨h1, h2⟩
    · split
      · exact ⟨h1, h2⟩
      · split
        · exact ⟨h1, h2⟩
        · exact ⟨h1, h2⟩
  | intersect entry =>
    simp only [step]
    split
    · exact ⟨h1, h2⟩
    · exact ⟨h1, h2⟩
  | pointer pe => exact ⟨h1, h2⟩
  | physicsEffect env =>
    refine ⟨h1, fun hs => ?_⟩
    have hs2 : ((physicsBuildT st.effectStarted st.isInitialized env
        cfg.gravity cfg.mouseConstraintStiffness (st.spans.getD [])).1).isSome
          = true := hs
    exact h1 (physicsBuildT_fst_isSome _ _ _ _ _ _ hs2).2

/-- Folding component steps from an invariant state stays in the
invariant. -/
theorem invC_foldl (cfg : Props) (es : List Event) (st : CState)
    (hst : InvC st) : InvC (es.foldl (step cfg) st) := by
  induction es generalizing st with
  | nil => exact hst
  | cons e es ih => exact ih _ (invC_step cfg st e hst)

/-- The freshly-mounted state satisfies the invariant. -/
theorem invC_init : InvC initC :=
  And.intro (fun hx => nomatch hx) (fun hx => nomatch hx)

/-- Claim C10 (confirmed): over every event trace of a mounted component,
a built session implies the token spans were rendered: the physics effect
requires both the activation flag and the initialization flag, and the
initialization flag is only ever set by the text effect that has already
written the spans, so no activation path creates physics bodies before
the tokens exist. -/
theorem session_requires_rendered_tokens (cfg : Props) (es : List Event)
    (h : (runC cfg es).session.isSome = true) :
    (runC cfg es).spans.isSome = true :=
  (invC_foldl cfg es initC invC_init).2 h

/-- Witness: a concrete auto-trigger trace builds a session and indeed
has its spans rendered. -/
theorem session_requires_rendered_tokens_witness :
    (runC defaultProps [Event.textEffect, Event.triggerEffect,
        Event.physicsEffect envA]).session.isSome = true ∧
    (runC defaultProps [Event.textEffect, Event.triggerEffect,
        Event.physicsEffect envA]).spans.isSome = true :=
  ⟨by decide,
   session_requires_rendered_tokens defaultProps
     [Event.textEffect, Event.triggerEffect, Event.physicsEffect envA]
     (by decide)⟩

end FallingText

